import Mathlib

/-!
Shallow embedding of the `POST /api/tts` handler of `src/index.ts` (a small
TTS gateway built on Elysia).  The handler is pure request translation, so it
is modelled as a function of:

* the process environment (the three API-key variables read at startup),
* an oracle for the Google auth client (`auth.getClient()` /
  `client.getAccessToken()`), which either yields a token value or throws,
* an oracle for `fetch`, mapping the request URL and the outbound request
  body to either a thrown network error or a provider response,
* the parsed JSON request body (each field `Option`al, mirroring JavaScript
  destructuring with defaults, where `none` models an absent / `undefined`
  property).

JavaScript truthiness on optional strings (`!text`, `!accessToken.token`,
`!GOOGLE_TTS_API_KEY`, `!data.audioContent`, `if (voiceName) ...`) is
modelled by `truthyS`; `String.prototype.includes` by `strIncludes`;
`Buffer.from(s, "base64")` by the lenient decoder `base64Decode` (characters
outside the base64 alphabet, including `=` padding, are skipped, and a
dangling final sextet is dropped).

The handler body sits inside `try { ... } catch { set.status = 500;
return { error: "Internal server error" } }`.  We model the `try` body as
`tryBody : ... → Except String TtsResult` where `Except.error msg` is a
value thrown inside the `try` (the two explicit `throw new Error(...)` sites
on a non-ok provider response, a rejected `fetch`, or a failed body parse),
and `handleTts` applies the `catch` conversion.
-/

namespace TtsGateway

/-- JavaScript truthiness of an optional string: `undefined` and `""` are
falsy, every other string is truthy. -/
def truthyS : Option String → Bool
  | none => false
  | some s => !(s == "")

/-- Model of `hay.includes(sub)` (substring containment). -/
def strIncludes (hay sub : String) : Bool :=
  decide (sub.toList <:+: hay.toList)

/-- The quota heuristic of `src/index.ts` (lines 92-93 and 170-171): the
error message contains one of the four literal substrings `"quota"`,
`"Quota"`, `"requests_per_minute"`, `"rate limit"`. -/
def isQuotaMessage (msg : String) : Bool :=
  strIncludes msg "quota" || strIncludes msg "Quota" ||
    strIncludes msg "requests_per_minute" || strIncludes msg "rate limit"

/-- ASCII lower-casing of a character, used to express the spec's
case-insensitive comparison. -/
def lowerChar (c : Char) : Char :=
  if 'A' ≤ c ∧ c ≤ 'Z' then Char.ofNat (c.toNat + 32) else c

/-- ASCII lower-casing of a string. -/
def lowerStr (s : String) : String :=
  String.mk (s.toList.map lowerChar)

/-- Spec-side definition (only for comparison with `isQuotaMessage`), after
the spec's words: the message case-insensitively contains one of `"quota"`,
`"requests_per_minute"`, `"rate limit"`. -/
def isQuotaMessageSpec (msg : String) : Bool :=
  strIncludes (lowerStr msg) "quota" || strIncludes (lowerStr msg) "requests_per_minute" ||
    strIncludes (lowerStr msg) "rate limit"

/-- Value of one base64 alphabet character; `none` for characters outside
the alphabet (they are skipped by the lenient decoder). -/
def base64Val (c : Char) : Option Nat :=
  if 'A' ≤ c ∧ c ≤ 'Z' then some (c.toNat - 'A'.toNat)
  else if 'a' ≤ c ∧ c ≤ 'z' then some (c.toNat - 'a'.toNat + 26)
  else if '0' ≤ c ∧ c ≤ '9' then some (c.toNat - '0'.toNat + 52)
  else if c = '+' then some 62
  else if c = '/' then some 63
  else none

/-- Reassemble 6-bit groups into bytes: four sextets give three bytes, a
final pair gives one byte, a final triple gives two, a dangling single
sextet is dropped. -/
def sextetsToBytes : List Nat → List Nat
  | a :: b :: c :: d :: rest =>
      (a * 4 + b / 16) :: ((b % 16) * 16 + c / 4) :: ((c % 4) * 64 + d) :: sextetsToBytes rest
  | [a, b] => [a * 4 + b / 16]
  | [a, b, c] => [a * 4 + b / 16, (b % 16) * 16 + c / 4]
  | _ => []

/-- Model of `Buffer.from(s, "base64")`: keep only alphabet characters and
reassemble their sextets into bytes. -/
def base64Decode (s : String) : List Nat :=
  sextetsToBytes (s.toList.filterMap base64Val)

/-- The parsed JSON request body; `none` models an absent property, so the
destructuring defaults of lines 30-48 are applied inside `tryBody`. -/
structure Body where
  text : Option String
  apiMode : Option String
  languageCode : Option String
  modelName : Option String
  voiceName : Option String
  audioEncoding : Option String
  pitch : Option Rat
  speakingRate : Option Rat
deriving DecidableEq

/-- The three environment variables read at startup (lines 5-7); `none`
models an unset variable. -/
structure Env where
  GOOGLE_TTS_API_KEY : Option String
  GOOGLE_VERTEX_AI_API_KEY : Option String
  OPENAI_API_KEY : Option String
deriving DecidableEq

/-- The `voice` object of a Google-style request body; `none` models an
omitted property. -/
structure VoicePayload where
  languageCode : String
  modelName : Option String
  name : Option String
deriving DecidableEq

/-- The `audioConfig` object of a Google-style request body; `none` models
an omitted property. -/
structure AudioConfigPayload where
  audioEncoding : String
  pitch : Option Rat
  speakingRate : Option Rat
deriving DecidableEq

/-- A Google-style outbound request body (`input.text`, `voice`,
`audioConfig`). -/
structure GoogleRequestBody where
  inputText : String
  voice : VoicePayload
  audioConfig : AudioConfigPayload
deriving DecidableEq

/-- The fixed style-instruction string of the commercial adapter
(lines 137-145). -/
def indonesianInstructions : String :=
  "\n            Speak in Bahasa Indonesia.\n            Voice Affect: Calm, composed, and reassuring; project quiet authority and confidence.\n            Tone: Announcer, sincere, empathetic, and gently authoritativeâ€”express genuine apology while conveying competence.\n            Pacing: Steady and moderate; unhurried enough to communicate care, yet efficient enough to demonstrate professionalism.\n            Emotion: Genuine empathy and understanding; speak with warmth\n            Pronunciation: Clear and precise\n            Pauses: Brief after commas, longer after period.\n            "

/-- The OpenAI-style outbound request body (lines 147-154). -/
structure OpenAIRequestBody where
  model : String
  instructions : String
  input : String
  voice : Option String
  response_format : String
  speed : Rat
deriving DecidableEq

/-- The outbound provider payload, tagged by shape. -/
inductive RequestBody where
  | google (b : GoogleRequestBody)
  | openai (b : OpenAIRequestBody)
deriving DecidableEq

/-- The observable parts of a provider response: the `ok` flag, the parsed
`errorData.error?.message` used on the non-ok path (`none` when the path
`error.message` is absent), the raw byte body (`response.arrayBuffer()`,
OpenAI success path) and the parsed `data.audioContent` (Google success
path, `none` when the field is absent). -/
structure ProviderResponse where
  ok : Bool
  errorMessage : Option String
  body : List Nat
  audioContent : Option String
deriving DecidableEq

/-- Outcome of the single `fetch` call: either the promise rejected (or a
body parse threw) with some message, or a response was produced. -/
inductive FetchOutcome where
  | exn (msg : String)
  | resp (r : ProviderResponse)
deriving DecidableEq

/-- Outcome of `auth.getClient()` / `client.getAccessToken()`:
`token tok` is a returned access token object whose `.token` field is
`tok` (possibly null/absent, hence `Option`); `exn m` is a thrown value,
with `m = some s` when it is an `Error` with message `s` and `none`
otherwise (line 89 then substitutes a fixed message). -/
inductive AuthOutcome where
  | token (tok : Option String)
  | exn (m : Option String)
deriving DecidableEq

/-- The observable HTTP result of the handler: a JSON error object
together with the status set on `set.status`, or a binary audio response
(HTTP 200) with its `Content-Type` and `Content-Length` headers. -/
inductive TtsResult where
  | jsonError (status : Nat) (error : String)
  | audio (body : List Nat) (contentType : String) (contentLength : Nat)
deriving DecidableEq

/-- The Google synthesis endpoint (lines 86 and 126, without the key query
parameter). -/
def googleTtsUrl : String := "https://texttospeech.googleapis.com/v1/text:synthesize"

/-- The OpenAI speech endpoint (line 156). -/
def openaiTtsUrl : String := "https://api.openai.com/v1/audio/speech"

/-- The vertex-branch request body (lines 73-85): caller text and
`languageCode`, fixed model `gemini-2.5-flash-tts`, `name` assigned the raw
`voiceName`, and `audioConfig.audioEncoding` fixed to `"LINEAR16"`. -/
def vertexRequestBody (text languageCode : String) (voiceName : Option String) :
    GoogleRequestBody :=
  { inputText := text
    voice := { languageCode := languageCode
               modelName := some "gemini-2.5-flash-tts"
               name := voiceName }
    audioConfig := { audioEncoding := "LINEAR16", pitch := none, speakingRate := none } }

/-- The standard-branch request body (lines 103-119): `voice.name` and
`voice.modelName` only when truthy, `audioConfig.pitch` only when the pitch
differs from `0`, `audioConfig.speakingRate` only when the rate differs
from `1`. -/
def standardRequestBody (text languageCode : String) (modelName voiceName : Option String)
    (audioEncoding : String) (pitch speakingRate : Rat) : GoogleRequestBody :=
  { inputText := text
    voice := { languageCode := languageCode
               modelName := if truthyS modelName then modelName else none
               name := if truthyS voiceName then voiceName else none }
    audioConfig := { audioEncoding := audioEncoding
                     pitch := if pitch ≠ 0 then some pitch else none
                     speakingRate := if speakingRate ≠ 1 then some speakingRate else none } }

/-- The OpenAI-branch request body (lines 147-154). -/
def openaiRequestBody (text : String) (voiceName : Option String)
    (audioEncoding : String) (speakingRate : Rat) : OpenAIRequestBody :=
  { model := "gpt-4o-mini-tts"
    instructions := indonesianInstructions
    input := text
    voice := voiceName
    response_format := if audioEncoding = "LINEAR16" then "wav" else "mp3"
    speed := speakingRate }

/-- The content type computed on both success paths (lines 193 and 217). -/
def contentTypeFor (audioEncoding : String) : String :=
  if audioEncoding = "LINEAR16" then "audio/wav" else "audio/mpeg"

/-- Lines 159-228: the shared code after the mode branch, applied to the
outcome of the `fetch` call.  `Except.error` models a `throw` inside the
handler's `try` block.  The inner non-ok check of lines 180-190 is kept
although the outer check of line 165 makes it unreachable. -/
def afterFetch (apiMode audioEncoding : String) (outcome : FetchOutcome) :
    Except String TtsResult :=
  match outcome with
  | .exn msg => Except.error msg
  | .resp r =>
    if !r.ok then
      let errorMessage := r.errorMessage.getD "TTS API request failed"
      if isQuotaMessage errorMessage then
        Except.error "Limit exceeded per project per minute"
      else
        Except.error errorMessage
    else if apiMode = "openai" then
      if !r.ok then
        let errorMessage := r.errorMessage.getD "OpenAI TTS API request failed"
        if strIncludes errorMessage "quota" || strIncludes errorMessage "rate limit" then
          Except.error "Limit exceeded per project per minute"
        else
          Except.error errorMessage
      else
        Except.ok (.audio r.body (contentTypeFor audioEncoding) r.body.length)
    else
      if !truthyS r.audioContent then
        Except.ok (.jsonError 500 "Failed to generate audio")
      else
        let audioBuffer := base64Decode (r.audioContent.getD "")
        Except.ok (.audio audioBuffer (contentTypeFor audioEncoding) audioBuffer.length)

/-- The `try` body of the handler (lines 29-228): destructure with
defaults, validate `text`, branch on `apiMode` (building the outbound
payload and URL, with the early returns of each branch), then run the
shared post-`fetch` code. -/
def tryBody (env : Env) (auth : AuthOutcome)
    (provider : String → Option RequestBody → FetchOutcome) (b : Body) :
    Except String TtsResult :=
  let text := b.text
  let apiMode := b.apiMode.getD "standard"
  let languageCode := b.languageCode.getD "id-ID"
  let modelName := b.modelName
  let voiceName := b.voiceName
  let audioEncoding := b.audioEncoding.getD "MP3"
  let pitch := b.pitch.getD 0
  let speakingRate := b.speakingRate.getD 1
  if !truthyS text then
    Except.ok (.jsonError 400 "Text is required")
  else
    let textVal := text.getD ""
    if apiMode = "vertex" then
      match auth with
      | .exn m =>
        let errorMessage := m.getD "Service account authentication failed"
        if isQuotaMessage errorMessage then
          Except.ok (.jsonError 429 "Limit exceeded per project per minute")
        else
          Except.ok (.jsonError 500 "Service account authentication failed")
      | .token tok =>
        if !truthyS tok then
          Except.ok (.jsonError 500 "Failed to get service account access token")
        else
          let requestBody := RequestBody.google (vertexRequestBody textVal languageCode voiceName)
          afterFetch apiMode audioEncoding (provider googleTtsUrl (some requestBody))
    else if apiMode = "standard" then
      let requestBody := RequestBody.google
        (standardRequestBody textVal languageCode modelName voiceName audioEncoding pitch speakingRate)
      if !truthyS env.GOOGLE_TTS_API_KEY then
        Except.ok (.jsonError 500 "TTS API key not configured")
      else
        afterFetch apiMode audioEncoding
          (provider (googleTtsUrl ++ "?key=" ++ env.GOOGLE_TTS_API_KEY.getD "") (some requestBody))
    else if apiMode = "openai" then
      if !truthyS env.OPENAI_API_KEY then
        Except.ok (.jsonError 500 "OpenAI API key not configured")
      else
        let requestBody := RequestBody.openai
          (openaiRequestBody textVal voiceName audioEncoding speakingRate)
        afterFetch apiMode audioEncoding (provider openaiTtsUrl (some requestBody))
    else
      afterFetch apiMode audioEncoding (provider "" none)

/-- The whole handler: the `catch` block of lines 229-233 converts every
value thrown inside the `try` body into HTTP 500 with the fixed message
`"Internal server error"`. -/
def handleTts (env : Env) (auth : AuthOutcome)
    (provider : String → Option RequestBody → FetchOutcome) (b : Body) : TtsResult :=
  match tryBody env auth provider b with
  | .ok r => r
  | .error _ => .jsonError 500 "Internal server error"

/-! Concrete sample values used by witnesses and counterexamples. -/

/-- Environment with no key configured. -/
def envAllNone : Env :=
  { GOOGLE_TTS_API_KEY := none, GOOGLE_VERTEX_AI_API_KEY := none, OPENAI_API_KEY := none }

/-- Environment with every key configured. -/
def envFull : Env :=
  { GOOGLE_TTS_API_KEY := some "k1", GOOGLE_VERTEX_AI_API_KEY := some "k2",
    OPENAI_API_KEY := some "k3" }

/-- Fetch oracle whose every call rejects (e.g. an unparsable URL). -/
def provExn : String → Option RequestBody → FetchOutcome :=
  fun _ _ => .exn "Failed to parse URL"

/-- Fetch oracle answering a non-ok response whose error message matches
the quota heuristic. -/
def provQuota : String → Option RequestBody → FetchOutcome :=
  fun _ _ => .resp { ok := false,
                     errorMessage := some "Quota exceeded for requests_per_minute",
                     body := [], audioContent := none }

/-- Fetch oracle answering a non-ok response with a generic error
message. -/
def provBoom : String → Option RequestBody → FetchOutcome :=
  fun _ _ => .resp { ok := false, errorMessage := some "Invalid voice name",
                     body := [], audioContent := none }

/-- Fetch oracle answering a successful Google-style response carrying
base64 `"QUJD"` (the bytes 65, 66, 67). -/
def provAudio : String → Option RequestBody → FetchOutcome :=
  fun _ _ => .resp { ok := true, errorMessage := none, body := [1, 2, 3],
                     audioContent := some "QUJD" }

/-- Fetch oracle answering a successful Google-style response whose
`audioContent` is present but the empty string. -/
def provEmptyAudio : String → Option RequestBody → FetchOutcome :=
  fun _ _ => .resp { ok := true, errorMessage := none, body := [],
                     audioContent := some "" }

/-- Request body with every property absent. -/
def bodyNoText : Body :=
  { text := none, apiMode := none, languageCode := none, modelName := none,
    voiceName := none, audioEncoding := none, pitch := none, speakingRate := none }

/-- Request body with only `text` set (mode defaults to standard). -/
def bodyStdHalo : Body := { bodyNoText with text := some "halo" }

/-- Request body with `text` set and `apiMode = "vertex"`. -/
def bodyVertexHalo : Body := { bodyNoText with text := some "halo", apiMode := some "vertex" }

/-- Request body with `text` set and `apiMode = "openai"`. -/
def bodyOpenaiHalo : Body := { bodyNoText with text := some "halo", apiMode := some "openai" }

/-- Request body with `text` set and an unrecognized `apiMode`. -/
def bodyUnknownHalo : Body := { bodyNoText with text := some "halo", apiMode := some "gemini" }

end TtsGateway

namespace TtsGateway

/-- Helper: any successful audio result of the shared post-fetch code has
content type `contentTypeFor audioEncoding`. -/
theorem afterFetch_audio_contentType (apiMode audioEncoding : String) (o : FetchOutcome)
    (bytes : List Nat) (ct : String) (len : Nat)
    (h : afterFetch apiMode audioEncoding o = Except.ok (TtsResult.audio bytes ct len)) :
    ct = contentTypeFor audioEncoding := by
  cases o with
  | exn m => simp [afterFetch] at h
  | resp r =>
    simp only [afterFetch] at h
    repeat' split at h
    all_goals simp_all

/-- Helper: any successful audio result of the try body has content type
computed from the request's (defaulted) `audioEncoding`. -/
theorem tryBody_audio_contentType (env : Env) (auth : AuthOutcome)
    (provider : String → Option RequestBody → FetchOutcome) (b : Body)
    (bytes : List Nat) (ct : String) (len : Nat)
    (h : tryBody env auth provider b = Except.ok (TtsResult.audio bytes ct len)) :
    ct = contentTypeFor (b.audioEncoding.getD "MP3") := by
  simp only [tryBody] at h
  repeat' split at h
  all_goals first
    | (exact afterFetch_audio_contentType _ _ _ _ _ _ h)
    | simp_all

/-- Claim C2: every request whose `text` is absent or the empty string gets
HTTP 400 with body error `"Text is required"`, whatever the environment,
auth outcome, provider behaviour and remaining fields (in particular
`apiMode`); the result does not depend on any adapter or provider. -/
theorem c2_empty_text_400 (env : Env) (auth : AuthOutcome)
    (provider : String → Option RequestBody → FetchOutcome) (b : Body)
    (h : b.text = none ∨ b.text = some "") :
    handleTts env auth provider b = .jsonError 400 "Text is required" := by
  rcases h with h | h <;> simp [handleTts, tryBody, truthyS, h]

/-- Witness for C2 at a concrete empty request. -/
theorem c2_empty_text_400_witness :
    handleTts envAllNone (.token none) provExn bodyNoText = .jsonError 400 "Text is required" :=
  c2_empty_text_400 envAllNone (.token none) provExn bodyNoText (Or.inl rfl)

/-- Claim C5: with non-empty text, standard mode with no configured
standard key yields HTTP 500 `"TTS API key not configured"`, and openai
mode with no configured OpenAI key yields HTTP 500
`"OpenAI API key not configured"`; the provider oracle is arbitrary in both
cases (no provider call influences the result). -/
theorem c5_missing_key_500 (env : Env) (auth : AuthOutcome)
    (provider : String → Option RequestBody → FetchOutcome) (b : Body)
    (htext : truthyS b.text = true) :
    (b.apiMode.getD "standard" = "standard" → truthyS env.GOOGLE_TTS_API_KEY = false →
      handleTts env auth provider b = .jsonError 500 "TTS API key not configured") ∧
    (b.apiMode.getD "standard" = "openai" → truthyS env.OPENAI_API_KEY = false →
      handleTts env auth provider b = .jsonError 500 "OpenAI API key not configured") := by
  constructor <;> intro hm hk <;> simp [handleTts, tryBody, htext, hm, hk]

/-- Witness for C5: both missing-key errors at concrete requests. -/
theorem c5_missing_key_500_witness :
    handleTts envAllNone (.token none) provExn bodyStdHalo =
      .jsonError 500 "TTS API key not configured" ∧
    handleTts envAllNone (.token none) provExn bodyOpenaiHalo =
      .jsonError 500 "OpenAI API key not configured" :=
  ⟨(c5_missing_key_500 envAllNone (.token none) provExn bodyStdHalo rfl).1 rfl rfl,
   (c5_missing_key_500 envAllNone (.token none) provExn bodyOpenaiHalo rfl).2 rfl rfl⟩

/-- Claim C7: every successful synthesis response carries content type
`audio/wav` exactly when the request's (defaulted) `audioEncoding` is
`"LINEAR16"` and `audio/mpeg` otherwise, on every adapter path. -/
theorem c7_content_type_from_audio_encoding (env : Env) (auth : AuthOutcome)
    (provider : String → Option RequestBody → FetchOutcome) (b : Body)
    (bytes : List Nat) (ct : String) (len : Nat)
    (h : handleTts env auth provider b = TtsResult.audio bytes ct len) :
    ct = (if b.audioEncoding.getD "MP3" = "LINEAR16" then "audio/wav" else "audio/mpeg") := by
  have hct : ct = contentTypeFor (b.audioEncoding.getD "MP3") := by
    unfold handleTts at h
    cases he : tryBody env auth provider b with
    | error e => rw [he] at h; simp at h
    | ok r =>
      rw [he] at h
      subst h
      exact tryBody_audio_contentType _ _ _ _ _ _ _ he
  simpa [contentTypeFor] using hct

/-- Witness for C7 at a concrete successful standard-mode request with the
default encoding. -/
theorem c7_content_type_witness :
    ("audio/mpeg" : String) =
      (if bodyStdHalo.audioEncoding.getD "MP3" = "LINEAR16" then "audio/wav" else "audio/mpeg") :=
  c7_content_type_from_audio_encoding envFull (.token (some "tok")) provAudio bodyStdHalo
    (base64Decode "QUJD") "audio/mpeg" (base64Decode "QUJD").length rfl

end TtsGateway

namespace TtsGateway

/-- Claim C8: in the standard adapter's outbound payload, `audioConfig`
contains a `pitch` field exactly when the request pitch differs from `0`
(and then carries that pitch), a `speakingRate` field exactly when the rate
differs from `1` (and then carries that rate), and with both at their
defaults both fields are omitted. -/
theorem c8_standard_payload_tuning_fields (text languageCode : String)
    (modelName voiceName : Option String) (audioEncoding : String)
    (pitch speakingRate : Rat) :
    ((∃ p, (standardRequestBody text languageCode modelName voiceName
        audioEncoding pitch speakingRate).audioConfig.pitch = some p) ↔ pitch ≠ 0) ∧
    ((∃ r, (standardRequestBody text languageCode modelName voiceName
        audioEncoding pitch speakingRate).audioConfig.speakingRate = some r) ↔ speakingRate ≠ 1) ∧
    (pitch ≠ 0 → (standardRequestBody text languageCode modelName voiceName
        audioEncoding pitch speakingRate).audioConfig.pitch = some pitch) ∧
    (speakingRate ≠ 1 → (standardRequestBody text languageCode modelName voiceName
        audioEncoding pitch speakingRate).audioConfig.speakingRate = some speakingRate) ∧
    (pitch = 0 → speakingRate = 1 →
      (standardRequestBody text languageCode modelName voiceName
        audioEncoding pitch speakingRate).audioConfig.pitch = none ∧
      (standardRequestBody text languageCode modelName voiceName
        audioEncoding pitch speakingRate).audioConfig.speakingRate = none) := by
  unfold standardRequestBody
  refine ⟨?_, ?_, ?_, ?_, ?_⟩ <;> try intro h
  all_goals split_ifs <;> simp_all

/-- Witness for C8 at pitch 5 (field present with value 5) and at the
defaults (both fields omitted). -/
theorem c8_standard_payload_tuning_witness :
    (standardRequestBody "halo" "id-ID" none none "MP3" 5 1).audioConfig.pitch = some 5 ∧
    (standardRequestBody "halo" "id-ID" none none "MP3" 0 1).audioConfig.pitch = none ∧
    (standardRequestBody "halo" "id-ID" none none "MP3" 0 1).audioConfig.speakingRate = none :=
  ⟨(c8_standard_payload_tuning_fields "halo" "id-ID" none none "MP3" 5 1).2.2.1 (by norm_num),
   ((c8_standard_payload_tuning_fields "halo" "id-ID" none none "MP3" 0 1).2.2.2.2 rfl rfl).1,
   ((c8_standard_payload_tuning_fields "halo" "id-ID" none none "MP3" 0 1).2.2.2.2 rfl rfl).2⟩

/-- Claim C9: the vertex (managed-identity) outbound payload always fixes
`audioConfig.audioEncoding` to `"LINEAR16"`, while the response content
type of a successful vertex request is still computed from the request's
`audioEncoding`; with the default (`"MP3"`) the label is `audio/mpeg`. -/
theorem c9_vertex_forces_linear16 (env : Env) (auth : AuthOutcome)
    (provider : String → Option RequestBody → FetchOutcome) (b : Body)
    (bytes : List Nat) (ct : String) (len : Nat)
    (_hmode : b.apiMode = some "vertex")
    (henc : b.audioEncoding.getD "MP3" = "MP3")
    (h : handleTts env auth provider b = TtsResult.audio bytes ct len) :
    ct = "audio/mpeg" ∧
    (∀ text languageCode voiceName,
      (vertexRequestBody text languageCode voiceName).audioConfig.audioEncoding
        = "LINEAR16") := by
  refine ⟨?_, fun _ _ _ => rfl⟩
  have hct : ct = contentTypeFor (b.audioEncoding.getD "MP3") := by
    unfold handleTts at h
    cases he : tryBody env auth provider b with
    | error e => rw [he] at h; simp at h
    | ok r =>
      rw [he] at h
      subst h
      exact tryBody_audio_contentType _ _ _ _ _ _ _ he
  rw [hct, henc]
  rfl

/-- Witness for C9 at a concrete successful vertex request with the
default encoding. -/
theorem c9_vertex_forces_linear16_witness :
    ("audio/mpeg" : String) = "audio/mpeg" ∧
    (vertexRequestBody "halo" "id-ID" none).audioConfig.audioEncoding = "LINEAR16" :=
  ⟨(c9_vertex_forces_linear16 envFull (.token (some "tok")) provAudio bodyVertexHalo
      (base64Decode "QUJD") "audio/mpeg" (base64Decode "QUJD").length rfl rfl rfl).1,
   (c9_vertex_forces_linear16 envFull (.token (some "tok")) provAudio bodyVertexHalo
      (base64Decode "QUJD") "audio/mpeg" (base64Decode "QUJD").length rfl rfl rfl).2
     "halo" "id-ID" none⟩

/-- Claim C10: with non-empty text and an `apiMode` that is none of
`vertex` / `standard` / `openai`, no branch builds a request body or URL,
so the handler fetches the empty URL with no body; assuming that fetch
rejects (as it does at runtime: the empty URL cannot be parsed), the caught
rejection yields HTTP 500 `"Internal server error"` — never a 400
validation error. -/
theorem c10_unknown_mode_500_internal (env : Env) (auth : AuthOutcome)
    (provider : String → Option RequestBody → FetchOutcome) (b : Body) (m : String)
    (htext : truthyS b.text = true)
    (h1 : b.apiMode.getD "standard" ≠ "vertex")
    (h2 : b.apiMode.getD "standard" ≠ "standard")
    (h3 : b.apiMode.getD "standard" ≠ "openai")
    (hfetch : provider "" none = FetchOutcome.exn m) :
    handleTts env auth provider b = .jsonError 500 "Internal server error" := by
  have ht : tryBody env auth provider b = Except.error m := by
    simp [tryBody, htext, h1, h2, h3, hfetch, afterFetch]
  simp [handleTts, ht]

/-- Witness for C10 at the concrete unrecognized mode `"gemini"`. -/
theorem c10_unknown_mode_500_internal_witness :
    handleTts envFull (.token (some "tok")) provExn bodyUnknownHalo =
      .jsonError 500 "Internal server error" :=
  c10_unknown_mode_500_internal envFull (.token (some "tok")) provExn bodyUnknownHalo
    "Failed to parse URL" rfl (by decide) (by decide) (by decide) rfl

end TtsGateway

namespace TtsGateway

/-- Claim C1, evaluated at its failing input: a provider non-ok response
whose error message is `"Quota exceeded for requests_per_minute"` does
match the quota heuristic and makes the handler throw
`"Limit exceeded per project per minute"` — but the handler's own catch
block swallows that value, so all three adapters answer HTTP 500 with body
error `"Internal server error"`, never the claimed HTTP 429. -/
theorem c1_provider_quota_maps_to_500_internal :
    isQuotaMessage "Quota exceeded for requests_per_minute" = true ∧
    tryBody envFull (.token (some "tok")) provQuota bodyStdHalo =
      Except.error "Limit exceeded per project per minute" ∧
    handleTts envFull (.token (some "tok")) provQuota bodyStdHalo =
      .jsonError 500 "Internal server error" ∧
    handleTts envFull (.token (some "tok")) provQuota bodyVertexHalo =
      .jsonError 500 "Internal server error" ∧
    handleTts envFull (.token (some "tok")) provQuota bodyOpenaiHalo =
      .jsonError 500 "Internal server error" :=
  ⟨rfl, rfl, rfl, rfl, rfl⟩

/-- Counterexample to claim C3 as stated: on a provider non-ok response
with the non-quota message `"Invalid voice name"` the response body error
is the fixed `"Internal server error"`, not the provider's message. -/
theorem c3_counterexample_provider_message_not_surfaced :
    handleTts envFull (.token (some "tok")) provBoom bodyStdHalo =
      .jsonError 500 "Internal server error" ∧
    handleTts envFull (.token (some "tok")) provBoom bodyStdHalo ≠
      .jsonError 500 "Invalid voice name" :=
  ⟨rfl, by decide⟩

/-- Claim C3 as amended: on any adapter path, a provider non-ok response
whose message does not match the quota heuristic makes the handler throw
the provider's message (or the fallback `"TTS API request failed"`), and
the catch block converts it to HTTP 500 with the fixed body error
`"Internal server error"`; the provider's message is never returned. -/
theorem c3_nonquota_provider_failure_500_internal (env : Env) (auth : AuthOutcome)
    (provider : String → Option RequestBody → FetchOutcome) (b : Body) (r : ProviderResponse)
    (htext : truthyS b.text = true)
    (hprov : ∀ u q, provider u q = FetchOutcome.resp r)
    (hnok : r.ok = false)
    (hnq : isQuotaMessage (r.errorMessage.getD "TTS API request failed") = false)
    (hdisp : (b.apiMode.getD "standard" = "standard" ∧ truthyS env.GOOGLE_TTS_API_KEY = true) ∨
      (b.apiMode.getD "standard" = "vertex" ∧
        ∃ tok, auth = AuthOutcome.token tok ∧ truthyS tok = true) ∨
      (b.apiMode.getD "standard" = "openai" ∧ truthyS env.OPENAI_API_KEY = true)) :
    tryBody env auth provider b =
      Except.error (r.errorMessage.getD "TTS API request failed") ∧
    handleTts env auth provider b = .jsonError 500 "Internal server error" := by
  have ht : tryBody env auth provider b =
      Except.error (r.errorMessage.getD "TTS API request failed") := by
    rcases hdisp with ⟨hm, hk⟩ | ⟨hm, tok, hauth, htok⟩ | ⟨hm, hk⟩
    · simp [tryBody, afterFetch, htext, hm, hk, hprov, hnok, hnq]
    · subst hauth
      simp [tryBody, afterFetch, htext, hm, htok, hprov, hnok, hnq]
    · simp [tryBody, afterFetch, htext, hm, hk, hprov, hnok, hnq]
  exact ⟨ht, by simp [handleTts, ht]⟩

/-- Witness for the amended C3 at a concrete standard-mode request. -/
theorem c3_nonquota_provider_failure_witness :
    tryBody envFull (.token (some "tok")) provBoom bodyStdHalo =
      Except.error ((some "Invalid voice name").getD "TTS API request failed") ∧
    handleTts envFull (.token (some "tok")) provBoom bodyStdHalo =
      .jsonError 500 "Internal server error" :=
  c3_nonquota_provider_failure_500_internal envFull (.token (some "tok")) provBoom bodyStdHalo
    { ok := false, errorMessage := some "Invalid voice name", body := [], audioContent := none }
    rfl (fun _ _ => rfl) rfl rfl (Or.inl ⟨rfl, rfl⟩)

/-- Counterexample to claim C4 as stated: the message `"QUOTA"` contains
`"quota"` case-insensitively (the spec-side classifier accepts it), yet the
code's classifier rejects it, and a vertex auth failure carrying it is
surfaced as a generic 500, not classified as a quota condition. -/
theorem c4_counterexample_case_sensitive :
    isQuotaMessageSpec "QUOTA" = true ∧
    isQuotaMessage "QUOTA" = false ∧
    handleTts envAllNone (.exn (some "QUOTA")) provExn bodyVertexHalo =
      .jsonError 500 "Service account authentication failed" :=
  ⟨rfl, rfl, rfl⟩

/-- Claim C4 as amended: the quota classification is case-sensitive
substring containment — a vertex auth failure is surfaced as the 429 quota
response exactly when its message contains one of the literal substrings
`"quota"`, `"Quota"`, `"requests_per_minute"`, `"rate limit"`, and
otherwise yields the generic 500. -/
theorem c4_quota_classification_case_sensitive (env : Env)
    (provider : String → Option RequestBody → FetchOutcome) (b : Body) (msg : String)
    (htext : truthyS b.text = true)
    (hmode : b.apiMode.getD "standard" = "vertex") :
    (handleTts env (.exn (some msg)) provider b =
        .jsonError 429 "Limit exceeded per project per minute" ↔
      ("quota".toList <:+: msg.toList ∨ "Quota".toList <:+: msg.toList ∨
       "requests_per_minute".toList <:+: msg.toList ∨ "rate limit".toList <:+: msg.toList)) ∧
    (isQuotaMessage msg = false →
      handleTts env (.exn (some msg)) provider b =
        .jsonError 500 "Service account authentication failed") := by
  have hres : handleTts env (.exn (some msg)) provider b =
      (if isQuotaMessage msg = true
        then TtsResult.jsonError 429 "Limit exceeded per project per minute"
        else TtsResult.jsonError 500 "Service account authentication failed") := by
    by_cases h : isQuotaMessage msg = true <;>
      simp [handleTts, tryBody, htext, hmode, h]
  have hiff : isQuotaMessage msg = true ↔
      ("quota".toList <:+: msg.toList ∨ "Quota".toList <:+: msg.toList ∨
       "requests_per_minute".toList <:+: msg.toList ∨ "rate limit".toList <:+: msg.toList) := by
    simp only [isQuotaMessage, strIncludes, Bool.or_eq_true, decide_eq_true_iff]
    tauto
  constructor
  · rw [hres]
    by_cases h : isQuotaMessage msg = true
    · rw [if_pos h]
      exact iff_of_true rfl (hiff.mp h)
    · rw [if_neg h]
      exact iff_of_false (by simp) (fun hr => h (hiff.mpr hr))
  · intro h
    rw [hres, if_neg]
    simp [h]

/-- Witness for the amended C4 at the concrete message
`"rate limit hit"`. -/
theorem c4_quota_classification_witness :
    handleTts envAllNone (.exn (some "rate limit hit")) provExn bodyVertexHalo =
        .jsonError 429 "Limit exceeded per project per minute" ↔
      ("quota".toList <:+: "rate limit hit".toList ∨
       "Quota".toList <:+: "rate limit hit".toList ∨
       "requests_per_minute".toList <:+: "rate limit hit".toList ∨
       "rate limit".toList <:+: "rate limit hit".toList) :=
  (c4_quota_classification_case_sensitive envAllNone provExn bodyVertexHalo
    "rate limit hit" rfl rfl).1

/-- Counterexample to claim C6 as stated: a successful Google-style
response that carries the `audioContent` field with the empty string (which
decodes to the empty byte sequence) is answered with HTTP 500, not with an
HTTP 200 empty audio body. -/
theorem c6_counterexample_empty_audio_content :
    handleTts envFull (.token (some "tok")) provEmptyAudio bodyStdHalo =
      .jsonError 500 "Failed to generate audio" ∧
    handleTts envFull (.token (some "tok")) provEmptyAudio bodyStdHalo ≠
      .audio (base64Decode "") "audio/mpeg" (base64Decode "").length :=
  ⟨rfl, by decide⟩

/-- Claim C6 as amended: on the standard (or vertex) path, a successful
provider response with a non-empty `audioContent` yields HTTP 200 whose
body is the base64 decoding of the field with `Content-Length` exactly the
decoded byte count, while a missing or empty `audioContent` yields
HTTP 500 with body error `"Failed to generate audio"`. -/
theorem c6_google_success_decoded_audio (env : Env) (auth : AuthOutcome)
    (provider : String → Option RequestBody → FetchOutcome) (b : Body) (r : ProviderResponse)
    (htext : truthyS b.text = true)
    (hprov : ∀ u q, provider u q = FetchOutcome.resp r)
    (hok : r.ok = true)
    (hdisp : (b.apiMode.getD "standard" = "standard" ∧ truthyS env.GOOGLE_TTS_API_KEY = true) ∨
      (b.apiMode.getD "standard" = "vertex" ∧
        ∃ tok, auth = AuthOutcome.token tok ∧ truthyS tok = true)) :
    (∀ s, r.audioContent = some s → s ≠ "" →
      handleTts env auth provider b =
        TtsResult.audio (base64Decode s)
          (if b.audioEncoding.getD "MP3" = "LINEAR16" then "audio/wav" else "audio/mpeg")
          (base64Decode s).length) ∧
    ((r.audioContent = none ∨ r.audioContent = some "") →
      handleTts env auth provider b = .jsonError 500 "Failed to generate audio") := by
  constructor
  · intro s hs hne
    have hts : truthyS (some s) = true := by simp [truthyS, hne]
    rcases hdisp with ⟨hm, hk⟩ | ⟨hm, tok, hauth, htok⟩
    · simp [handleTts, tryBody, afterFetch, htext, hm, hk, hprov, hok, hts, hs, contentTypeFor]
    · subst hauth
      simp [handleTts, tryBody, afterFetch, htext, hm, htok, hprov, hok, hts, hs, contentTypeFor]
  · intro hs
    rcases hdisp with ⟨hm, hk⟩ | ⟨hm, tok, hauth, htok⟩
    · rcases hs with hs | hs <;>
        simp [handleTts, tryBody, afterFetch, htext, hm, hk, hprov, hok, hs,
          show truthyS none = false from rfl, show truthyS (some "") = false from rfl]
    · subst hauth
      rcases hs with hs | hs <;>
        simp [handleTts, tryBody, afterFetch, htext, hm, htok, hprov, hok, hs,
          show truthyS none = false from rfl, show truthyS (some "") = false from rfl]

/-- Witness for the amended C6 at a concrete standard-mode success with
base64 `"QUJD"`. -/
theorem c6_google_success_decoded_audio_witness :
    handleTts envFull (.token (some "tok")) provAudio bodyStdHalo =
      TtsResult.audio (base64Decode "QUJD")
        (if bodyStdHalo.audioEncoding.getD "MP3" = "LINEAR16" then "audio/wav" else "audio/mpeg")
        (base64Decode "QUJD").length :=
  (c6_google_success_decoded_audio envFull (.token (some "tok")) provAudio bodyStdHalo
    { ok := true, errorMessage := none, body := [1, 2, 3], audioContent := some "QUJD" }
    rfl (fun _ _ => rfl) rfl (Or.inl ⟨rfl, rfl⟩)).1 "QUJD" rfl (by decide)

end TtsGateway
